import Mathlib

/-!
# Landing-zone detection: data model, representation bridge, cloud loader and downsampler

A shallow embedding of `src/lib/include/common.h`.

* C++ `float` and `double` are IEEE 754 binary32 / binary64 values, kept as
  their three bit fields (sign, biased exponent, trailing significand).
* A `shared_ptr` to a cloud is an `Option`: `none` is the null pointer.
* Text written to `std::cerr` / `std::cout` is returned as a list of lines.
* Storage that the code leaves unset is an explicit parameter of the function
  that leaves it unset.
* The library filter `pcl::VoxelGrid` is a parameter of `downsamplePointCloudPCL`;
  `voxelGridFilter` models it after the written specification.
-/

namespace SLZD

/-! ## Scalars -/

/-- C++ `float`: an IEEE 754 binary32 value as its fields. -/
structure Float32 where
  sign : Bool
  exponent : Fin 256
  mantissa : Fin 8388608
deriving DecidableEq

/-- C++ `double`: an IEEE 754 binary64 value as its fields. -/
structure Float64 where
  sign : Bool
  exponent : Fin 2048
  mantissa : Fin 4503599627370496
deriving DecidableEq

/-- Packs three bit fields into a binary32 value (each field is masked to its width). -/
def Float32.ofFields (s : Bool) (e m : Nat) : Float32 :=
  ⟨s, ⟨e % 256, Nat.mod_lt _ (by decide)⟩, ⟨m % 8388608, Nat.mod_lt _ (by decide)⟩⟩

/-- Packs three bit fields into a binary64 value (each field is masked to its width). -/
def Float64.ofFields (s : Bool) (e m : Nat) : Float64 :=
  ⟨s, ⟨e % 2048, Nat.mod_lt _ (by decide)⟩,
    ⟨m % 4503599627370496, Nat.mod_lt _ (by decide)⟩⟩

/-- The literal `0.0f`. -/
def Float32.zero : Float32 := Float32.ofFields false 0 0

/-- The literal `1.0f`. -/
def Float32.one : Float32 := Float32.ofFields false 127 0

/-- The literal `0.0`. -/
def Float64.zero : Float64 := Float64.ofFields false 0 0

/-- Not-a-number test for binary32. -/
def Float32.isNaN (f : Float32) : Bool :=
  decide (f.exponent.val = 255) && decide (f.mantissa.val ≠ 0)

/-- Finite test for binary32 (`std::isfinite`). -/
def Float32.isFinite (f : Float32) : Bool := decide (f.exponent.val ≠ 255)

/-- Not-a-number test for binary64. -/
def Float64.isNaN (d : Float64) : Bool :=
  decide (d.exponent.val = 2047) && decide (d.mantissa.val ≠ 0)

/-- Finite test for binary64 (`std::isfinite`). -/
def Float64.isFinite (d : Float64) : Bool := decide (d.exponent.val ≠ 2047)

/-- A signalling NaN: a NaN whose quiet bit (the top significand bit) is clear. -/
def Float32.isSignalingNaN (f : Float32) : Bool :=
  f.isNaN && decide (f.mantissa.val < 4194304)

/-- Sets the quiet bit of a NaN and leaves every other value alone. -/
def Float32.quiet (f : Float32) : Float32 :=
  if f.isNaN then Float32.ofFields f.sign 255 (f.mantissa.val % 4194304 + 4194304) else f

/-- Shifts a non-zero subnormal binary32 significand left until its bit 23 is
set, lowering the (binary64-biased) exponent by one per shift. -/
def normalizeSubnormal : Nat → Nat → Nat → Nat × Nat
  | 0, m, e => (m, e)
  | fuel + 1, m, e =>
    if 8388608 ≤ m then (m, e) else normalizeSubnormal fuel (m * 2) (e - 1)

/-- The implicit conversion `float → double` (as in `Eigen::Vector3d(pt.x, pt.y, pt.z)`).
It is exact on every number; a NaN keeps its sign and payload and becomes quiet. -/
def floatToDouble (f : Float32) : Float64 :=
  let e := f.exponent.val
  let m := f.mantissa.val
  if e = 255 then
    if m = 0 then Float64.ofFields f.sign 2047 0
    else Float64.ofFields f.sign 2047 ((m % 4194304 + 4194304) * 536870912)
  else if e = 0 then
    if m = 0 then Float64.ofFields f.sign 0 0
    else
      let n := normalizeSubnormal 23 m 897
      Float64.ofFields f.sign n.2 ((n.1 - 8388608) * 536870912)
  else Float64.ofFields f.sign (e + 896) (m * 536870912)

/-- The implicit conversion `double → float` (as in `pcl_pt.x = pt(0)`), rounding to
nearest, ties to even; overflow gives infinity; a NaN keeps its sign and the top
bits of its payload and becomes quiet. -/
def doubleToFloat (d : Float64) : Float32 :=
  let E := d.exponent.val
  let M := d.mantissa.val
  if E = 2047 then
    if M = 0 then Float32.ofFields d.sign 255 0
    else Float32.ofFields d.sign 255 ((M / 536870912) % 4194304 + 4194304)
  else
    let sig := if E = 0 then M else 4503599627370496 + M
    let e := if E = 0 then 1 else E
    let shift := if 897 ≤ e then 29 else 29 + (897 - e)
    let e32 := if 897 ≤ e then e - 896 else 1
    let q := sig / 2 ^ shift
    let r := sig % 2 ^ shift
    let half := 2 ^ (shift - 1)
    let q1 := if half < r ∨ (r = half ∧ q % 2 = 1) then q + 1 else q
    let packed := (e32 - 1) * 8388608 + q1
    if 2139095040 ≤ packed then Float32.ofFields d.sign 255 0
    else Float32.ofFields d.sign (packed / 8388608) (packed % 8388608)

/-! ## Points and clouds -/

/-- The type `pcl::PointXYZI`: three coordinates and an intensity, all `float`. -/
structure PointXYZI where
  x : Float32
  y : Float32
  z : Float32
  intensity : Float32
deriving DecidableEq

/-- `using PointT = pcl::PointXYZI;` -/
abbrev PointT := PointXYZI

/-- The default constructor `PointT pcl_pt;`, which PCL defines as
`x = y = z = 0.0f; intensity = 0.0f`. -/
def PointXYZI.default : PointT :=
  { x := Float32.zero, y := Float32.zero, z := Float32.zero, intensity := Float32.zero }

/-- The type `pcl::PointCloud<PointT>`: the point vector with the `uint32_t`
fields `width`, `height` and the flag `is_dense` (header and sensor pose are
not touched by this file and are left out). -/
structure PointCloudT where
  points : List PointT
  width : Nat
  height : Nat
  is_dense : Bool
deriving DecidableEq

/-- A fresh cloud, `pcl::make_shared<PointCloudT>()` or `new pcl::PointCloud<PointT>`:
no points, `width = 0`, `height = 0`, `is_dense = true`. -/
def PointCloudT.new : PointCloudT :=
  { points := [], width := 0, height := 0, is_dense := true }

/-- The type `Eigen::Vector3d`; `pt(0)`, `pt(1)`, `pt(2)` are `x`, `y`, `z`. -/
structure Vector3d where
  x : Float64
  y : Float64
  z : Float64
deriving DecidableEq

/-- The type `Eigen::Vector4d`. -/
structure Vector4d where
  a : Float64
  b : Float64
  c : Float64
  d : Float64
deriving DecidableEq

/-- The type `open3d::geometry::PointCloud`: its point, normal and colour vectors. -/
structure O3DPointCloud where
  points_ : List Vector3d
  normals_ : List Vector3d
  colors_ : List Vector3d
deriving DecidableEq

/-- A fresh cloud, `std::make_shared<open3d::geometry::PointCloud>()`. -/
def O3DPointCloud.new : O3DPointCloud :=
  { points_ := [], normals_ := [], colors_ := [] }

/-- The type `pcl::ModelCoefficients`: a vector of `float` values. -/
structure ModelCoefficients where
  values : List Float32
deriving DecidableEq

/-- The struct `PCLResult`; every `Ptr` member may be null (`none`). -/
structure PCLResult where
  downsampled_cloud : Option PointCloudT
  inlier_cloud : Option PointCloudT
  outlier_cloud : Option PointCloudT
  pcl_method : String
  plane_coefficients : Option ModelCoefficients
deriving DecidableEq

/-- The struct `OPEN3DResult`; every `shared_ptr` member may be null (`none`). -/
structure OPEN3DResult where
  inlier_cloud : Option O3DPointCloud
  outlier_cloud : Option O3DPointCloud
  downsampled_cloud : Option O3DPointCloud
  open3d_method : String
  plane_coefficients : Vector4d
deriving DecidableEq

/-! ## Representation bridge -/

/-- The loop body of `convertOpen3DToPCL`: a default point whose `x`, `y`, `z`
are assigned from `pt(0)`, `pt(1)`, `pt(2)`. -/
def toPCLPoint (pt : Vector3d) : PointT :=
  { PointXYZI.default with
    x := doubleToFloat pt.x, y := doubleToFloat pt.y, z := doubleToFloat pt.z }

/-- The loop body of `convertPCLToOpen3D`: `Eigen::Vector3d(pt.x, pt.y, pt.z)`. -/
def toOpen3DPoint (pt : PointT) : Vector3d :=
  { x := floatToDouble pt.x, y := floatToDouble pt.y, z := floatToDouble pt.z }

/-- One of the three "Convert ... cloud" blocks of `convertOpen3DToPCL`: when the
source pointer is non-null and its `points_` is not empty, every point is pushed
onto the destination and `width`, `height`, `is_dense` are set; otherwise the
destination is left as it is and the warning goes to `std::cerr`. -/
def convertCloudOpen3DToPCL (src : Option O3DPointCloud) (dst : PointCloudT)
    (warning : String) (cerr : List String) : PointCloudT × List String :=
  match src with
  | some cloud =>
    if !cloud.points_.isEmpty then
      let points := cloud.points_.foldl (fun acc pt => acc ++ [toPCLPoint pt]) dst.points
      ({ dst with points := points, width := points.length % 4294967296,
                  height := 1, is_dense := true }, cerr)
    else (dst, cerr ++ [warning])
  | none => (dst, cerr ++ [warning])

/-- The function `convertOpen3DToPCL`, returning the result and the lines it
wrote to `std::cerr`. The plane coefficients are not assigned: the member keeps
its default, a null pointer. -/
def convertOpen3DToPCL (open3d_result : OPEN3DResult) : PCLResult × List String :=
  let downsampled := convertCloudOpen3DToPCL open3d_result.downsampled_cloud PointCloudT.new
    "[convertOpen3DToPCL] Warning: Downsampled cloud is empty." []
  let inlier := convertCloudOpen3DToPCL open3d_result.inlier_cloud PointCloudT.new
    "[convertOpen3DToPCL] Warning: Inlier cloud is empty." downsampled.2
  let outlier := convertCloudOpen3DToPCL open3d_result.outlier_cloud PointCloudT.new
    "[convertOpen3DToPCL] Warning: Outlier cloud is empty." inlier.2
  ({ downsampled_cloud := some downsampled.1,
     inlier_cloud := some inlier.1,
     outlier_cloud := some outlier.1,
     pcl_method := open3d_result.open3d_method,
     plane_coefficients := none }, outlier.2)

/-- One of the three "Convert ... cloud" blocks of `convertPCLToOpen3D`. -/
def convertCloudPCLToOpen3D (src : Option PointCloudT) (dst : O3DPointCloud)
    (warning : String) (cerr : List String) : O3DPointCloud × List String :=
  match src with
  | some cloud =>
    if !cloud.points.isEmpty then
      ({ dst with points_ :=
          cloud.points.foldl (fun acc pt => acc ++ [toOpen3DPoint pt]) dst.points_ }, cerr)
    else (dst, cerr ++ [warning])
  | none => (dst, cerr ++ [warning])

/-- The function `convertPCLToOpen3D`, returning the result and the lines it
wrote to `std::cerr`. `OPEN3DResult open3d_result;` default-constructs the
`Eigen::Vector4d` member, which leaves its four entries uninitialised, and the
function never assigns it: `uninitialised` stands for whatever that storage holds. -/
def convertPCLToOpen3D (uninitialised : Vector4d) (pcl_result : PCLResult) :
    OPEN3DResult × List String :=
  let downsampled := convertCloudPCLToOpen3D pcl_result.downsampled_cloud O3DPointCloud.new
    "[convertPCLToOpen3D] Warning: Downsampled cloud is empty." []
  let inlier := convertCloudPCLToOpen3D pcl_result.inlier_cloud O3DPointCloud.new
    "[convertPCLToOpen3D] Warning: Inlier cloud is empty." downsampled.2
  let outlier := convertCloudPCLToOpen3D pcl_result.outlier_cloud O3DPointCloud.new
    "[convertPCLToOpen3D] Warning: Outlier cloud is empty." inlier.2
  ({ inlier_cloud := some inlier.1,
     outlier_cloud := some outlier.1,
     downsampled_cloud := some downsampled.1,
     open3d_method := pcl_result.pcl_method,
     plane_coefficients := uninitialised }, outlier.2)

/-! ## Cloud loader -/

/-- The type `CloudInput<PointT>`, a `std::variant` of a file path and a cloud pointer. -/
inductive CloudInput where
  | path (file_path : String)
  | cloud (ptr : Option PointCloudT)
deriving DecidableEq

/-- The value of `EXIT_FAILURE`. -/
def EXIT_FAILURE : Nat := 1

/-- How a call of `loadPCLCloud` ends: it returns a pointer, it ends the process
through `exit`, or it reads through a null pointer (no defined behaviour). -/
inductive LoadOutcome where
  | returned (cloud : Option PointCloudT)
  | exited (status : Nat)
  | nullDereference
deriving DecidableEq

/-- A run of `loadPCLCloud`: its outcome, the lines written to `std::cout` and
`std::cerr`, and the paths handed to the file parser. -/
structure LoadRun where
  outcome : LoadOutcome
  cout : List String
  cerr : List String
  fileReads : List String
deriving DecidableEq

/-- The function `loadPCLCloud`. The PCL parser `pcl::io::loadPCDFile` is a
parameter: given the path and the cloud it is to fill, it yields its return code
and the cloud's new contents. -/
def loadPCLCloud (loadPCDFile : String → PointCloudT → Int × PointCloudT)
    (input : CloudInput) : LoadRun :=
  let cloud := PointCloudT.new
  match input with
  | CloudInput.path file_path =>
    let parsed := loadPCDFile file_path cloud
    if parsed.1 = -1 then
      { outcome := LoadOutcome.exited EXIT_FAILURE,
        cout := [],
        cerr := ["Failed to load " ++ file_path],
        fileReads := [file_path] }
    else
      { outcome := LoadOutcome.returned (some parsed.2),
        cout := ["Loaded cloud with " ++ toString parsed.2.points.length ++ " points."],
        cerr := [],
        fileReads := [file_path] }
  | CloudInput.cloud ptr =>
    match ptr with
    | some provided =>
      { outcome := LoadOutcome.returned (some provided),
        cout := ["Using provided cloud with " ++ toString provided.points.length ++ " points."],
        cerr := [],
        fileReads := [] }
    | none =>
      { outcome := LoadOutcome.nullDereference, cout := [], cerr := [], fileReads := [] }

/-! ## Vocabulary for stating properties -/

/-- The points a PCL cloud pointer gives access to: those of the cloud, and none
for a null pointer. -/
def pointsOfPCL (ptr : Option PointCloudT) : List PointT :=
  match ptr with
  | some cloud => cloud.points
  | none => []

/-- The points an Open3D cloud pointer gives access to: those of the cloud, and
none for a null pointer. -/
def pointsOfOpen3D (ptr : Option O3DPointCloud) : List Vector3d :=
  match ptr with
  | some cloud => cloud.points_
  | none => []

/-- The spatial coordinates of a PCL point, without its intensity. -/
def PointXYZI.xyz (pt : PointT) : Float32 × Float32 × Float32 := (pt.x, pt.y, pt.z)

/-- A segmentation result of either representation family. -/
inductive SegmentationResult where
  | pcl (r : PCLResult)
  | open3d (r : OPEN3DResult)
deriving DecidableEq

/-- The method label of a segmentation result. -/
def SegmentationResult.method_label : SegmentationResult → String
  | SegmentationResult.pcl r => r.pcl_method
  | SegmentationResult.open3d r => r.open3d_method

/-- Converts a segmentation result to the other family with the bridge function
for its family. -/
def SegmentationResult.convert (uninitialised : Vector4d) :
    SegmentationResult → SegmentationResult
  | SegmentationResult.pcl r => SegmentationResult.open3d (convertPCLToOpen3D uninitialised r).1
  | SegmentationResult.open3d r => SegmentationResult.pcl (convertOpen3DToPCL r).1

/-- An alternating chain of `n` conversions; `uninitialised k` is the storage
content met by the `k`-th conversion. -/
def convertChain (uninitialised : Nat → Vector4d) : Nat → SegmentationResult → SegmentationResult
  | 0, r => r
  | n + 1, r => (convertChain uninitialised n r).convert (uninitialised n)

/-! ## Sample values -/

/-- The literal `1.0`. -/
def Float64.one : Float64 := Float64.ofFields false 1023 0

/-- The literal `2.0f`. -/
def Float32.two : Float32 := Float32.ofFields false 128 0

/-- The zero vector `(0, 0, 0, 0)`. -/
def Vector4d.zero : Vector4d :=
  { a := Float64.zero, b := Float64.zero, c := Float64.zero, d := Float64.zero }

/-- Storage content `(1, 0, 0, 0)` that a default-constructed `Eigen::Vector4d` may hold. -/
def sampleStorage : Vector4d :=
  { a := Float64.one, b := Float64.zero, c := Float64.zero, d := Float64.zero }

/-- A PCL result with a two-point downsampled cloud, an allocated inlier cloud
without points and a one-point outlier cloud. -/
def samplePCLResult : PCLResult :=
  { downsampled_cloud := some
      { points := [⟨Float32.one, Float32.two, Float32.one, Float32.two⟩,
                   ⟨Float32.two, Float32.one, Float32.two, Float32.one⟩],
        width := 2, height := 1, is_dense := true },
    inlier_cloud := some PointCloudT.new,
    outlier_cloud := some
      { points := [⟨Float32.two, Float32.two, Float32.one, Float32.one⟩],
        width := 1, height := 1, is_dense := true },
    pcl_method := "RANSAC",
    plane_coefficients := none }

/-- The same coordinates and label as `samplePCLResult` with other intensities,
cloud metadata and plane coefficients, and a null inlier pointer. -/
def samplePCLResultVariant : PCLResult :=
  { downsampled_cloud := some
      { points := [⟨Float32.one, Float32.two, Float32.one, Float32.zero⟩,
                   ⟨Float32.two, Float32.one, Float32.two, Float32.two⟩],
        width := 1, height := 2, is_dense := false },
    inlier_cloud := none,
    outlier_cloud := some
      { points := [⟨Float32.two, Float32.two, Float32.one, Float32.two⟩],
        width := 7, height := 3, is_dense := false },
    pcl_method := "RANSAC",
    plane_coefficients := some { values := [Float32.one, Float32.zero, Float32.zero, Float32.two] } }

/-- An Open3D result with a null inlier pointer and one-point outlier and
downsampled clouds. -/
def sampleOpen3DResult : OPEN3DResult :=
  { inlier_cloud := none,
    outlier_cloud := some
      { points_ := [⟨Float64.one, Float64.zero, Float64.one⟩], normals_ := [], colors_ := [] },
    downsampled_cloud := some
      { points_ := [⟨Float64.one, Float64.zero, Float64.one⟩], normals_ := [], colors_ := [] },
    open3d_method := "RANSAC",
    plane_coefficients := sampleStorage }

/-- A stand-in for the PCD parser: it knows the file `scan.pcd`, which holds one
point, and fails with `-1` on any other path. -/
def samplePCDParser (file_path : String) (cloud : PointCloudT) : Int × PointCloudT :=
  if file_path = "scan.pcd" then
    (0, { points := [⟨Float32.one, Float32.one, Float32.one, Float32.zero⟩],
          width := 1, height := 1, is_dense := true })
  else (-1, cloud)

/-! ## Candidate zone -/

/-- The type `pcl::PointXYZ`: three `float` coordinates. -/
structure PointXYZ where
  x : Float32
  y : Float32
  z : Float32
deriving DecidableEq

/-- The default constructor of `pcl::PointXYZ`: `x = y = z = 0.0f`. -/
def PointXYZ.default : PointXYZ :=
  { x := Float32.zero, y := Float32.zero, z := Float32.zero }

/-- The struct `SLZDCandidatePoints`. -/
structure SLZDCandidatePoints where
  seedPoint : PointXYZ
  detectedSurface : Option PointCloudT
  dataConfidence : Float64
  roughness : Float64
  relief : Float64
  score : Float64
  patchRadius : Float64
  plane_coefficients : Option ModelCoefficients
deriving DecidableEq

/-- The constructor `SLZDCandidatePoints()`. Its initialiser list is
`dataConfidence(0.0), roughness(0.0), relief(0.0), score(0.0)` and its body is
empty: the class-type members are default-constructed, and `patchRadius`, a
`double` without initialiser, keeps what its storage held (`uninitialised`). -/
def SLZDCandidatePoints.default (uninitialised : Float64) : SLZDCandidatePoints :=
  { seedPoint := PointXYZ.default,
    detectedSurface := none,
    dataConfidence := Float64.zero,
    roughness := Float64.zero,
    relief := Float64.zero,
    score := Float64.zero,
    patchRadius := uninitialised,
    plane_coefficients := none }

/-! ## Downsampler -/

/-- The comparison `v > 0` on `float`: false for NaN and for both zeros. -/
def Float32.gtZero (v : Float32) : Bool :=
  !v.sign && !v.isNaN && !(decide (v.exponent.val = 0) && decide (v.mantissa.val = 0))

/-- The comparison `v <= 0` on `float`: false for NaN, true for both zeros. -/
def Float32.leZero (v : Float32) : Bool :=
  !v.isNaN && (v.sign || (decide (v.exponent.val = 0) && decide (v.mantissa.val = 0)))

/-- How a call of `downsamplePointCloudPCL` ends: it returns, the cloud behind
`output_cloud` holding `output`; or `*output_cloud` reads through a null pointer. -/
inductive DownsampleOutcome where
  | completed (output : PointCloudT)
  | nullDereference
deriving DecidableEq

/-- The function `downsamplePointCloudPCL`. The library filter `pcl::VoxelGrid`
is a parameter: `voxelGrid input leaf output` is what `setInputCloud(input)`,
`setLeafSize(leaf, leaf, leaf)` and `filter(output)` leave in `output`. The
function passes `voxelSize` on as it is. -/
def downsamplePointCloudPCL
    (voxelGrid : Option PointCloudT → Float32 → PointCloudT → PointCloudT)
    (input_cloud : Option PointCloudT) (output_cloud : Option PointCloudT)
    (voxelSize : Float32) : DownsampleOutcome :=
  match output_cloud with
  | some output => DownsampleOutcome.completed (voxelGrid input_cloud voxelSize output)
  | none => DownsampleOutcome.nullDereference

/-- The exact value of a finite `float` in units of `2^-149`, of which every
finite `float` is an integer multiple; `none` for an infinity or a NaN. -/
def Float32.scaled (f : Float32) : Option Int :=
  if f.exponent.val = 255 then none
  else
    let magnitude : Nat :=
      if f.exponent.val = 0 then f.mantissa.val
      else (8388608 + f.mantissa.val) * 2 ^ (f.exponent.val - 1)
    some (if f.sign then -(magnitude : Int) else (magnitude : Int))

/-- The test `pcl::isXYZFinite`: the three coordinates are finite. -/
def PointXYZI.isFiniteXYZ (pt : PointT) : Bool :=
  pt.x.isFinite && pt.y.isFinite && pt.z.isFinite

/-- Modelled from the spec: the cell index of a coordinate along one axis of
"a regular grid of cubic cells of edge `voxelSize`", which `pcl::VoxelGrid`
(library code, not in the repository) computes. The anchor `origin` of the grid
(in units of `2^-149`) is a parameter; the index is the floor of
`(x - origin) / leaf`, computed exactly. Every input point is counted in a cell
("result is empty iff C is empty", section 8): the spec gives no rule for a
coordinate that is not finite, nor for an edge that is not finite, and the index
is `0` there. The spec defines no grid for an edge `<= 0`; the formula is applied
there as it is. -/
def axisIndex (origin : Int) (leaf : Float32) (x : Float32) : Int :=
  match x.scaled, leaf.scaled with
  | some position, some edge => (position - origin) / edge
  | _, _ => 0

/-- Modelled from the spec: the cell of the regular grid a point falls in. -/
def voxelCell (origin : Int × Int × Int) (leaf : Float32) (pt : PointT) : Int × Int × Int :=
  (axisIndex origin.1 leaf pt.x, axisIndex origin.2.1 leaf pt.y, axisIndex origin.2.2 leaf pt.z)

/-- Modelled from the spec: the voxel-grid filter `pcl::VoxelGrid<PointT>` (library
code, not in the repository), after section 4.2: space is partitioned into a
regular grid of cubic cells of edge `leaf`, and "each occupied cell contributes
exactly one representative point to the output (the centroid of all input points
falling in that cell)". The averaging is floating-point arithmetic and is the
parameter `centroid`; the grid anchor is the parameter `origin`. Without an input
cloud the filter leaves the output as it is. -/
def voxelGridFilter (centroid : List PointT → PointT) (origin : Int × Int × Int)
    (input_cloud : Option PointCloudT) (leaf : Float32) (output : PointCloudT) : PointCloudT :=
  match input_cloud with
  | none => output
  | some input =>
    let occupied := (input.points.map (voxelCell origin leaf)).dedup
    let points := occupied.map (fun cell =>
      centroid (input.points.filter (fun pt => voxelCell origin leaf pt = cell)))
    { points := points, width := points.length % 4294967296, height := 1, is_dense := true }

/-- The smallest finite value among some coordinates, in units of `2^-149`, and
`0` when none of them is finite. -/
def minimumCoordinate (coordinates : List Float32) : Int :=
  match coordinates.filterMap Float32.scaled with
  | [] => 0
  | first :: rest => rest.foldl min first

/-- The minimum corner of a cloud's bounding box, in units of `2^-149`. -/
def cloudMinimumCorner (input : PointCloudT) : Int × Int × Int :=
  (minimumCoordinate (input.points.map PointXYZI.x),
   minimumCoordinate (input.points.map PointXYZI.y),
   minimumCoordinate (input.points.map PointXYZI.z))

/-- Modelled from the spec: the voxel-grid filter `pcl::VoxelGrid<PointT>` (library
code, not in the repository) with its grid laid over the input cloud, the first
cell starting at the cloud's minimum corner. Section 4.2 names no anchor; this is
the anchoring under which the scenario of section 8 reads as the spec words it:
a cube of edge 2 lies within one cell of edge 3 ("all corners in one cell"). -/
def voxelGridOverCloud (centroid : List PointT → PointT)
    (input_cloud : Option PointCloudT) (leaf : Float32) (output : PointCloudT) : PointCloudT :=
  match input_cloud with
  | none => output
  | some input => voxelGridFilter centroid (cloudMinimumCorner input) (some input) leaf output

/-! ## More vocabulary for stating properties -/

/-- The three clouds of a run of `convertOpen3DToPCL`, each source pointer with
the destination pointer made from it. -/
def cloudPairsOpen3DToPCL (o : OPEN3DResult) :
    List (Option O3DPointCloud × Option PointCloudT) :=
  [(o.downsampled_cloud, (convertOpen3DToPCL o).1.downsampled_cloud),
   (o.inlier_cloud, (convertOpen3DToPCL o).1.inlier_cloud),
   (o.outlier_cloud, (convertOpen3DToPCL o).1.outlier_cloud)]

/-- The three clouds of a run of `convertPCLToOpen3D`, each source pointer with
the destination pointer made from it. -/
def cloudPairsPCLToOpen3D (uninitialised : Vector4d) (p : PCLResult) :
    List (Option PointCloudT × Option O3DPointCloud) :=
  [(p.downsampled_cloud, (convertPCLToOpen3D uninitialised p).1.downsampled_cloud),
   (p.inlier_cloud, (convertPCLToOpen3D uninitialised p).1.inlier_cloud),
   (p.outlier_cloud, (convertPCLToOpen3D uninitialised p).1.outlier_cloud)]

/-- The PCL-side round trip `convertOpen3DToPCL(convertPCLToOpen3D(R))`, each
cloud pointer of `R` with the pointer that comes back. -/
def cloudPairsRoundTrip (uninitialised : Vector4d) (R : PCLResult) :
    List (Option PointCloudT × Option PointCloudT) :=
  [(R.downsampled_cloud,
      (convertOpen3DToPCL (convertPCLToOpen3D uninitialised R).1).1.downsampled_cloud),
   (R.inlier_cloud,
      (convertOpen3DToPCL (convertPCLToOpen3D uninitialised R).1).1.inlier_cloud),
   (R.outlier_cloud,
      (convertOpen3DToPCL (convertPCLToOpen3D uninitialised R).1).1.outlier_cloud)]

/-! ## More sample values -/

/-- The literal `-1.0f`. -/
def Float32.negOne : Float32 := Float32.ofFields true 127 0

/-- A signalling NaN of type `float`. -/
def Float32.signalingNaN : Float32 := Float32.ofFields false 255 1

/-- A quiet NaN of type `double`. -/
def Float64.quietNaN : Float64 := Float64.ofFields false 2047 2251799813685248

/-- The eight corners `(±1, ±1, ±1)` of the cube of edge 2 centred at the origin. -/
def cubeCorners : List PointT :=
  [⟨Float32.negOne, Float32.negOne, Float32.negOne, Float32.zero⟩,
   ⟨Float32.negOne, Float32.negOne, Float32.one, Float32.zero⟩,
   ⟨Float32.negOne, Float32.one, Float32.negOne, Float32.zero⟩,
   ⟨Float32.negOne, Float32.one, Float32.one, Float32.zero⟩,
   ⟨Float32.one, Float32.negOne, Float32.negOne, Float32.zero⟩,
   ⟨Float32.one, Float32.negOne, Float32.one, Float32.zero⟩,
   ⟨Float32.one, Float32.one, Float32.negOne, Float32.zero⟩,
   ⟨Float32.one, Float32.one, Float32.one, Float32.zero⟩]

/-- The cube corners as an unorganised cloud. -/
def cubeCloud : PointCloudT :=
  { points := cubeCorners, width := 8, height := 1, is_dense := true }

/-- The anchor of a grid whose cells are aligned to the multiples of the edge. -/
def alignedOrigin : Int × Int × Int := (0, 0, 0)

/-- The anchor of a grid that starts at the corner `(-1, -1, -1)` of the cube,
in units of `2^-149`. -/
def cubeMinimumOrigin : Int × Int × Int :=
  (-713623846352979940529142984724747568191373312,
   -713623846352979940529142984724747568191373312,
   -713623846352979940529142984724747568191373312)

/-- A stand-in for the averaging: the first point of the cell. -/
def sampleCentroid (cellPoints : List PointT) : PointT :=
  cellPoints.headD PointXYZI.default

/-- An Open3D result whose downsampled cloud holds one point with a NaN coordinate. -/
def nanOpen3DResult : OPEN3DResult :=
  { inlier_cloud := none,
    outlier_cloud := none,
    downsampled_cloud := some
      { points_ := [⟨Float64.quietNaN, Float64.zero, Float64.one⟩], normals_ := [], colors_ := [] },
    open3d_method := "RANSAC",
    plane_coefficients := sampleStorage }

/-- An Open3D result whose downsampled cloud holds `n` copies of the point `(1, 1, 1)`. -/
def uniformOpen3DResult (n : Nat) : OPEN3DResult :=
  { inlier_cloud := none,
    outlier_cloud := none,
    downsampled_cloud := some
      { points_ := List.replicate n ⟨Float64.one, Float64.one, Float64.one⟩,
        normals_ := [], colors_ := [] },
    open3d_method := "RANSAC",
    plane_coefficients := sampleStorage }

/-- A PCL result whose downsampled cloud holds one point with intensity `0.0f`
and a signalling NaN as `x`. -/
def signalingPCLResult : PCLResult :=
  { downsampled_cloud := some
      { points := [⟨Float32.signalingNaN, Float32.one, Float32.one, Float32.zero⟩],
        width := 1, height := 1, is_dense := false },
    inlier_cloud := some PointCloudT.new,
    outlier_cloud := some PointCloudT.new,
    pcl_method := "RANSAC",
    plane_coefficients := none }

/-! ## Scalar conversions: widening is exact, narrowing undoes it -/

theorem normalizeSubnormal_spec (fuel : Nat) : ∀ (m e : Nat), 0 < m → m < 16777216 →
    8388608 ≤ m * 2 ^ fuel →
    ∃ j, j ≤ fuel ∧ normalizeSubnormal fuel m e = (m * 2 ^ j, e - j) ∧
      8388608 ≤ m * 2 ^ j ∧ m * 2 ^ j < 16777216 := by
  induction fuel with
  | zero =>
    intro m e _ h2 h3
    exact ⟨0, le_refl _, by simp [normalizeSubnormal], by simpa using h3, by simpa using h2⟩
  | succ n ih =>
    intro m e h1 h2 h3
    by_cases hm : 8388608 ≤ m
    · exact ⟨0, Nat.zero_le _, by simp [normalizeSubnormal, hm], by simpa using hm, by simpa using h2⟩
    · have h3' : 8388608 ≤ m * 2 * 2 ^ n := by
        rw [Nat.mul_assoc, ← Nat.pow_succ']; exact h3
      obtain ⟨j, hj, heq, hlo, hhi⟩ := ih (m * 2) (e - 1) (by omega) (by omega) h3'
      refine ⟨j + 1, by omega, ?_, ?_, ?_⟩
      · simp only [normalizeSubnormal, hm, if_false, heq]
        rw [Nat.pow_succ', ← Nat.mul_assoc]
        congr 1
        omega
      · rw [Nat.pow_succ', ← Nat.mul_assoc]; exact hlo
      · rw [Nat.pow_succ', ← Nat.mul_assoc]; exact hhi

theorem Float32.ofFields_eq (s : Bool) (e m : Nat) (he : e < 256) (hm : m < 8388608) :
    Float32.ofFields s e m = ⟨s, ⟨e, he⟩, ⟨m, hm⟩⟩ := by
  simp [Float32.ofFields, Nat.mod_eq_of_lt he, Nat.mod_eq_of_lt hm]

theorem doubleToFloat_ofFields_normal (s : Bool) (e m : Nat) (he0 : 0 < e) (he : e < 255)
    (hm : m < 8388608) :
    doubleToFloat (Float64.ofFields s (e + 896) (m * 536870912)) = Float32.ofFields s e m := by
  have h1 : (e + 896) % 2048 = e + 896 := by omega
  have h2 : (m * 536870912) % 4503599627370496 = m * 536870912 := by omega
  simp only [doubleToFloat, Float64.ofFields, h1, h2]
  have h3 : ¬ (e + 896 = 2047) := by omega
  have h4 : ¬ (e + 896 = 0) := by omega
  have h5 : 897 ≤ e + 896 := by omega
  simp only [h3, h4, h5, if_true, if_false]
  have h6 : (4503599627370496 + m * 536870912) / 2 ^ 29 = 8388608 + m := by
    norm_num; omega
  have h7 : (4503599627370496 + m * 536870912) % 2 ^ 29 = 0 := by
    norm_num
  simp only [h6, h7]
  have h9 : e + 896 - 896 - 1 = e - 1 := by omega
  have h10 : ¬ ((2:Nat) ^ (29 - 1) < 0 ∨ 0 = (2:Nat) ^ (29 - 1) ∧ (8388608 + m) % 2 = 1) := by
    norm_num
  have h8 : ¬ (2139095040 ≤ (e - 1) * 8388608 + (8388608 + m)) := by omega
  simp only [h9, h10, h8, if_false]
  have h11 : ((e - 1) * 8388608 + (8388608 + m)) / 8388608 = e := by omega
  have h12 : ((e - 1) * 8388608 + (8388608 + m)) % 8388608 = m := by omega
  rw [h11, h12]

end SLZD

namespace SLZD

theorem doubleToFloat_ofFields_subnormal (s : Bool) (m j : Nat) (hj : 0 < j) (hj2 : j ≤ 23)
    (hm : m < 8388608) (hlo : 8388608 ≤ m * 2 ^ j) (hhi : m * 2 ^ j < 16777216) :
    doubleToFloat (Float64.ofFields s (897 - j) ((m * 2 ^ j - 8388608) * 536870912))
      = Float32.ofFields s 0 m := by
  generalize ht : 2 ^ j = t at hlo hhi
  have h1 : (897 - j) % 2048 = 897 - j := by omega
  have h2 : ((m * t - 8388608) * 536870912) % 4503599627370496
      = (m * t - 8388608) * 536870912 := by omega
  simp only [doubleToFloat, Float64.ofFields, h1, h2]
  have h3 : ¬ (897 - j = 2047) := by omega
  have h4 : ¬ (897 - j = 0) := by omega
  have h5 : ¬ (897 ≤ 897 - j) := by omega
  simp only [h3, h4, h5, if_false]
  have hs : 29 + (897 - (897 - j)) = 29 + j := by omega
  have hp : 2 ^ (29 + j) = 536870912 * t := by rw [Nat.pow_add, ht]
  have hsig : 4503599627370496 + (m * t - 8388608) * 536870912 = m * (536870912 * t) := by
    have : m * (536870912 * t) = (m * t) * 536870912 := by ring
    rw [this]; omega
  have hpos : 0 < 536870912 * t := by
    rcases Nat.eq_zero_or_pos t with h | h
    · subst h; omega
    · omega
  rw [hs, hp, hsig, Nat.mul_div_cancel _ hpos, Nat.mul_mod_left]
  have hhalf : ¬ ((2:Nat) ^ (29 + j - 1) < 0 ∨ 0 = (2:Nat) ^ (29 + j - 1) ∧ m % 2 = 1) := by
    have : 0 < (2:Nat) ^ (29 + j - 1) := Nat.pos_pow_of_pos _ (by decide)
    omega
  have h8 : ¬ (2139095040 ≤ (1 - 1) * 8388608 + m) := by omega
  simp only [hhalf, h8, if_false]
  have h11 : ((1 - 1) * 8388608 + m) / 8388608 = 0 := by omega
  have h12 : ((1 - 1) * 8388608 + m) % 8388608 = m := by omega
  rw [h11, h12]

theorem doubleToFloat_ofFields_inf (s : Bool) :
    doubleToFloat (Float64.ofFields s 2047 0) = Float32.ofFields s 255 0 := by
  cases s <;> rfl

theorem doubleToFloat_ofFields_zero (s : Bool) :
    doubleToFloat (Float64.ofFields s 0 0) = Float32.ofFields s 0 0 := by
  have h1 : (0 : Nat) % 2048 = 0 := by decide
  have h2 : (0 : Nat) % 4503599627370496 = 0 := by decide
  have h3 : ¬ ((0 : Nat) = 2047) := by decide
  have h4 : ¬ (897 ≤ 1) := by decide
  simp only [doubleToFloat, Float64.ofFields, h1, h2, h3, h4, if_true, if_false,
    Nat.zero_div, Nat.zero_mod]
  generalize (29 + (897 - 1) - 1) = k
  have hpos : 0 < 2 ^ k := Nat.pos_pow_of_pos k (by decide)
  generalize 2 ^ k = t at hpos
  have hq : ¬ (t < 0 ∨ 0 = t ∧ 0 = 1) := by omega
  simp only [hq, if_false]
  rfl

theorem doubleToFloat_ofFields_nan (s : Bool) (p : Nat) (hp : p < 4194304) :
    doubleToFloat (Float64.ofFields s 2047 ((p + 4194304) * 536870912))
      = Float32.ofFields s 255 (p + 4194304) := by
  have h1 : (2047 : Nat) % 2048 = 2047 := by decide
  have h2 : ((p + 4194304) * 536870912) % 4503599627370496 = (p + 4194304) * 536870912 := by
    omega
  have h3 : ¬ ((p + 4194304) * 536870912 = 0) := by omega
  have h4 : (p + 4194304) * 536870912 / 536870912 % 4194304 = p := by omega
  simp only [doubleToFloat, Float64.ofFields, h1, h2, h3, h4, if_true, if_false]

theorem doubleToFloat_floatToDouble (f : Float32) :
    doubleToFloat (floatToDouble f) = f.quiet := by
  rcases f with ⟨s, ⟨e, he⟩, ⟨m, hm⟩⟩
  simp only [floatToDouble, Float32.quiet, Float32.isNaN, Bool.and_eq_true, decide_eq_true_eq]
  by_cases h255 : e = 255
  · by_cases hm0 : m = 0
    · rw [if_pos h255, if_pos hm0, if_neg (by simp [hm0]), doubleToFloat_ofFields_inf]
      subst h255 hm0
      rfl
    · rw [if_pos h255, if_neg hm0, if_pos ⟨h255, hm0⟩,
        doubleToFloat_ofFields_nan s _ (Nat.mod_lt _ (by decide))]
  · by_cases h0 : e = 0
    · by_cases hm0 : m = 0
      · rw [if_neg h255, if_pos h0, if_pos hm0, if_neg (by simp [h255]),
          doubleToFloat_ofFields_zero]
        subst h0 hm0
        rfl
      · obtain ⟨j, hj, heq, hlo, hhi⟩ :=
          normalizeSubnormal_spec 23 m 897 (by omega) (by omega) (by
            have : 8388608 ≤ 1 * 2 ^ 23 := by norm_num
            exact le_trans this (Nat.mul_le_mul_right _ (by omega)))
        have hj0 : 0 < j := by
          rcases Nat.eq_zero_or_pos j with h | h
          · subst h; simp at hlo; omega
          · exact h
        rw [if_neg h255, if_pos h0, if_neg hm0, if_neg (by simp [h255]), heq,
          doubleToFloat_ofFields_subnormal s m j hj0 hj hm hlo hhi,
          Float32.ofFields_eq s 0 m (by omega) hm]
        subst h0
        rfl
    · rw [if_neg h255, if_neg h0, if_neg (by simp [h255]),
        doubleToFloat_ofFields_normal s e m (by omega) (by omega) hm,
        Float32.ofFields_eq s e m he hm]

theorem floatToDouble_quiet (f : Float32) : floatToDouble f.quiet = floatToDouble f := by
  rcases f with ⟨s, ⟨e, he⟩, ⟨m, hm⟩⟩
  simp only [Float32.quiet, Float32.isNaN, Bool.and_eq_true, decide_eq_true_eq]
  by_cases h : e = 255 ∧ m ≠ 0
  · have h3 : (m % 4194304 + 4194304) % 8388608 = m % 4194304 + 4194304 := by omega
    have h4 : (m % 4194304 + 4194304) % 4194304 = m % 4194304 := by omega
    have h5 : ¬ (m % 4194304 + 4194304 = 0) := by omega
    have h6 : (255 : Nat) % 256 = 255 := by decide
    rw [if_pos h]
    simp only [floatToDouble, Float32.ofFields, h3, h4, h5, h6, h.1, h.2, if_true, if_false]
  · rw [if_neg h]

theorem floatToDouble_roundtrip (f : Float32) :
    floatToDouble (doubleToFloat (floatToDouble f)) = floatToDouble f := by
  rw [doubleToFloat_floatToDouble, floatToDouble_quiet]

theorem doubleToFloat_floatToDouble_of_not_signaling (f : Float32)
    (h : f.isSignalingNaN = false) : doubleToFloat (floatToDouble f) = f := by
  rw [doubleToFloat_floatToDouble]
  rcases f with ⟨s, ⟨e, he⟩, ⟨m, hm⟩⟩
  simp only [Float32.isSignalingNaN, Float32.isNaN, Bool.and_eq_false_iff, Bool.and_eq_true,
    decide_eq_true_eq, decide_eq_false_iff_not] at h
  simp only [Float32.quiet, Float32.isNaN, Bool.and_eq_true, decide_eq_true_eq]
  by_cases hn : e = 255 ∧ m ≠ 0
  · have h1 : m % 4194304 + 4194304 = m := by omega
    rw [if_pos hn, h1, Float32.ofFields_eq s 255 m (by decide) hm]
    obtain ⟨h2, _⟩ := hn
    subst h2
    rfl
  · rw [if_neg hn]

/-! ## The bridge, cloud by cloud -/

theorem foldl_push_eq_append_map {α β : Type} (f : α → β) (l : List α) (init : List β) :
    List.foldl (fun acc pt => acc ++ [f pt]) init l = init ++ l.map f := by
  induction l generalizing init with
  | nil => simp
  | cons a t ih => simp [List.foldl_cons, ih]

theorem convertCloudPCLToOpen3D_cloud (src : Option PointCloudT) (warning : String)
    (cerr : List String) :
    (convertCloudPCLToOpen3D src O3DPointCloud.new warning cerr).1
      = { points_ := (pointsOfPCL src).map toOpen3DPoint, normals_ := [], colors_ := [] } := by
  cases src with
  | none => rfl
  | some cloud =>
    cases hp : cloud.points with
    | nil => simp [convertCloudPCLToOpen3D, pointsOfPCL, hp, O3DPointCloud.new]
    | cons a t =>
      simp [convertCloudPCLToOpen3D, pointsOfPCL, hp, O3DPointCloud.new,
        foldl_push_eq_append_map]

theorem convertCloudPCLToOpen3D_cerr (src : Option PointCloudT) (dst : O3DPointCloud)
    (warning : String) (cerr : List String) :
    (convertCloudPCLToOpen3D src dst warning cerr).2
      = cerr ++ (if pointsOfPCL src = [] then [warning] else []) := by
  cases src with
  | none => simp [convertCloudPCLToOpen3D, pointsOfPCL]
  | some cloud =>
    cases hp : cloud.points with
    | nil => simp [convertCloudPCLToOpen3D, pointsOfPCL, hp]
    | cons a t => simp [convertCloudPCLToOpen3D, pointsOfPCL, hp]

theorem convertCloudOpen3DToPCL_points (src : Option O3DPointCloud) (warning : String)
    (cerr : List String) :
    (convertCloudOpen3DToPCL src PointCloudT.new warning cerr).1.points
      = (pointsOfOpen3D src).map toPCLPoint := by
  cases src with
  | none => rfl
  | some cloud =>
    cases hp : cloud.points_ with
    | nil => simp [convertCloudOpen3DToPCL, pointsOfOpen3D, hp, PointCloudT.new]
    | cons a t =>
      simp [convertCloudOpen3DToPCL, pointsOfOpen3D, hp, PointCloudT.new,
        foldl_push_eq_append_map]

theorem convertCloudOpen3DToPCL_cerr (src : Option O3DPointCloud) (dst : PointCloudT)
    (warning : String) (cerr : List String) :
    (convertCloudOpen3DToPCL src dst warning cerr).2
      = cerr ++ (if pointsOfOpen3D src = [] then [warning] else []) := by
  cases src with
  | none => simp [convertCloudOpen3DToPCL, pointsOfOpen3D]
  | some cloud =>
    cases hp : cloud.points_ with
    | nil => simp [convertCloudOpen3DToPCL, pointsOfOpen3D, hp]
    | cons a t => simp [convertCloudOpen3DToPCL, pointsOfOpen3D, hp]

theorem toOpen3DPoint_toPCLPoint_toOpen3DPoint (pt : PointT) :
    toOpen3DPoint (toPCLPoint (toOpen3DPoint pt)) = toOpen3DPoint pt := by
  simp [toOpen3DPoint, toPCLPoint, floatToDouble_roundtrip]

theorem map_bridge_roundtrip (l : List PointT) :
    ((l.map toOpen3DPoint).map toPCLPoint).map toOpen3DPoint = l.map toOpen3DPoint := by
  simp [List.map_map, Function.comp_def, toOpen3DPoint_toPCLPoint_toOpen3DPoint]

/-! ## Properties of the representation bridge -/

/-- C1: converting a PCL result to Open3D, back to PCL and to Open3D again gives,
for each of the three clouds, the same coordinates (the same point list, hence
the same collection) as converting it to Open3D once. -/
theorem C1_bridge_roundtrip_coordinates (u₁ u₂ u₃ : Vector4d) (R : PCLResult) :
    pointsOfOpen3D
        (convertPCLToOpen3D u₃ (convertOpen3DToPCL (convertPCLToOpen3D u₂ R).1).1).1.downsampled_cloud
      = pointsOfOpen3D (convertPCLToOpen3D u₁ R).1.downsampled_cloud
    ∧ pointsOfOpen3D
        (convertPCLToOpen3D u₃ (convertOpen3DToPCL (convertPCLToOpen3D u₂ R).1).1).1.inlier_cloud
      = pointsOfOpen3D (convertPCLToOpen3D u₁ R).1.inlier_cloud
    ∧ pointsOfOpen3D
        (convertPCLToOpen3D u₃ (convertOpen3DToPCL (convertPCLToOpen3D u₂ R).1).1).1.outlier_cloud
      = pointsOfOpen3D (convertPCLToOpen3D u₁ R).1.outlier_cloud := by
  simp only [convertPCLToOpen3D, convertOpen3DToPCL, convertCloudPCLToOpen3D_cloud,
    pointsOfOpen3D, pointsOfPCL, convertCloudOpen3DToPCL_points, map_bridge_roundtrip,
    and_self]

/-- C2: the method label is copied verbatim in both directions, so it survives
an alternating chain of any number of conversions. -/
theorem C2_method_label_copied :
    (∀ o : OPEN3DResult, (convertOpen3DToPCL o).1.pcl_method = o.open3d_method)
    ∧ (∀ (u : Vector4d) (p : PCLResult), (convertPCLToOpen3D u p).1.open3d_method = p.pcl_method)
    ∧ (∀ (u : Nat → Vector4d) (n : Nat) (r : SegmentationResult),
        (convertChain u n r).method_label = r.method_label) := by
  refine ⟨fun o => rfl, fun u p => rfl, fun u n r => ?_⟩
  induction n with
  | zero => rfl
  | succ k ih =>
    rw [convertChain, ← ih]
    cases convertChain u k r <;> rfl

/-- C3 (as amended): neither direction derives the destination plane model from
the source. `convertOpen3DToPCL` leaves the pointer null; `convertPCLToOpen3D`
never assigns the vector, which keeps whatever its unset storage held. -/
theorem C3_plane_model_not_converted :
    (∀ o : OPEN3DResult, (convertOpen3DToPCL o).1.plane_coefficients = none)
    ∧ (∀ (u : Vector4d) (p : PCLResult), (convertPCLToOpen3D u p).1.plane_coefficients = u) :=
  ⟨fun _ => rfl, fun _ _ => rfl⟩

/-- C4: when the source inlier cloud has no point and the source outlier cloud
has some, either conversion gives a non-null inlier cloud without points, an
outlier cloud with as many points as the source, and exactly one warning that
names the inlier cloud. -/
theorem C4_empty_inlier_nonempty_outlier :
    (∀ o : OPEN3DResult,
      pointsOfOpen3D o.inlier_cloud = [] → pointsOfOpen3D o.outlier_cloud ≠ [] →
        (∃ c, (convertOpen3DToPCL o).1.inlier_cloud = some c ∧ c.points = [])
        ∧ (pointsOfPCL (convertOpen3DToPCL o).1.outlier_cloud).length
            = (pointsOfOpen3D o.outlier_cloud).length
        ∧ (convertOpen3DToPCL o).2.count
            "[convertOpen3DToPCL] Warning: Inlier cloud is empty." = 1)
    ∧ (∀ (u : Vector4d) (p : PCLResult),
      pointsOfPCL p.inlier_cloud = [] → pointsOfPCL p.outlier_cloud ≠ [] →
        (∃ c, (convertPCLToOpen3D u p).1.inlier_cloud = some c ∧ c.points_ = [])
        ∧ (pointsOfOpen3D (convertPCLToOpen3D u p).1.outlier_cloud).length
            = (pointsOfPCL p.outlier_cloud).length
        ∧ (convertPCLToOpen3D u p).2.count
            "[convertPCLToOpen3D] Warning: Inlier cloud is empty." = 1) := by
  constructor
  · intro o hin hout
    refine ⟨⟨_, rfl, ?_⟩, ?_, ?_⟩
    · rw [convertCloudOpen3DToPCL_points, hin]; rfl
    · simp only [convertOpen3DToPCL, pointsOfPCL, convertCloudOpen3DToPCL_points,
        List.length_map]
    · simp only [convertOpen3DToPCL, convertCloudOpen3DToPCL_cerr, hin, hout, if_true,
        if_false, List.nil_append, List.append_nil]
      split <;> decide
  · intro u p hin hout
    refine ⟨⟨_, rfl, ?_⟩, ?_, ?_⟩
    · rw [convertCloudPCLToOpen3D_cloud, hin]; rfl
    · simp only [convertPCLToOpen3D, pointsOfOpen3D, convertCloudPCLToOpen3D_cloud,
        List.length_map]
    · simp only [convertPCLToOpen3D, convertCloudPCLToOpen3D_cerr, hin, hout, if_true,
        if_false, List.nil_append, List.append_nil]
      split <;> decide

/-- C5: either conversion writes, in order, exactly one warning for each source
cloud (downsampled, inlier, outlier) that is empty or null and none for a cloud
that has a point, so the number of warnings is the number of empty source clouds
(at most three); and it always returns a result whose three clouds are present. -/
theorem C5_one_warning_per_empty_cloud :
    (∀ o : OPEN3DResult,
      (convertOpen3DToPCL o).2
          = (if pointsOfOpen3D o.downsampled_cloud = []
              then ["[convertOpen3DToPCL] Warning: Downsampled cloud is empty."] else [])
            ++ (if pointsOfOpen3D o.inlier_cloud = []
              then ["[convertOpen3DToPCL] Warning: Inlier cloud is empty."] else [])
            ++ (if pointsOfOpen3D o.outlier_cloud = []
              then ["[convertOpen3DToPCL] Warning: Outlier cloud is empty."] else [])
      ∧ (convertOpen3DToPCL o).2.length
          = (if pointsOfOpen3D o.downsampled_cloud = [] then 1 else 0)
            + (if pointsOfOpen3D o.inlier_cloud = [] then 1 else 0)
            + (if pointsOfOpen3D o.outlier_cloud = [] then 1 else 0)
      ∧ (convertOpen3DToPCL o).2.length ≤ 3
      ∧ (convertOpen3DToPCL o).1.downsampled_cloud.isSome = true
      ∧ (convertOpen3DToPCL o).1.inlier_cloud.isSome = true
      ∧ (convertOpen3DToPCL o).1.outlier_cloud.isSome = true)
    ∧ (∀ (u : Vector4d) (p : PCLResult),
      (convertPCLToOpen3D u p).2
          = (if pointsOfPCL p.downsampled_cloud = []
              then ["[convertPCLToOpen3D] Warning: Downsampled cloud is empty."] else [])
            ++ (if pointsOfPCL p.inlier_cloud = []
              then ["[convertPCLToOpen3D] Warning: Inlier cloud is empty."] else [])
            ++ (if pointsOfPCL p.outlier_cloud = []
              then ["[convertPCLToOpen3D] Warning: Outlier cloud is empty."] else [])
      ∧ (convertPCLToOpen3D u p).2.length
          = (if pointsOfPCL p.downsampled_cloud = [] then 1 else 0)
            + (if pointsOfPCL p.inlier_cloud = [] then 1 else 0)
            + (if pointsOfPCL p.outlier_cloud = [] then 1 else 0)
      ∧ (convertPCLToOpen3D u p).2.length ≤ 3
      ∧ (convertPCLToOpen3D u p).1.downsampled_cloud.isSome = true
      ∧ (convertPCLToOpen3D u p).1.inlier_cloud.isSome = true
      ∧ (convertPCLToOpen3D u p).1.outlier_cloud.isSome = true) := by
  constructor
  · intro o
    have hlog : (convertOpen3DToPCL o).2
          = (if pointsOfOpen3D o.downsampled_cloud = []
              then ["[convertOpen3DToPCL] Warning: Downsampled cloud is empty."] else [])
            ++ (if pointsOfOpen3D o.inlier_cloud = []
              then ["[convertOpen3DToPCL] Warning: Inlier cloud is empty."] else [])
            ++ (if pointsOfOpen3D o.outlier_cloud = []
              then ["[convertOpen3DToPCL] Warning: Outlier cloud is empty."] else []) := by
      simp only [convertOpen3DToPCL, convertCloudOpen3DToPCL_cerr, List.nil_append]
    refine ⟨hlog, ?_, ?_, rfl, rfl, rfl⟩
    · rw [hlog]
      split <;> split <;> split <;> rfl
    · rw [hlog]
      split <;> split <;> split <;> decide
  · intro u p
    have hlog : (convertPCLToOpen3D u p).2
          = (if pointsOfPCL p.downsampled_cloud = []
              then ["[convertPCLToOpen3D] Warning: Downsampled cloud is empty."] else [])
            ++ (if pointsOfPCL p.inlier_cloud = []
              then ["[convertPCLToOpen3D] Warning: Inlier cloud is empty."] else [])
            ++ (if pointsOfPCL p.outlier_cloud = []
              then ["[convertPCLToOpen3D] Warning: Outlier cloud is empty."] else []) := by
      simp only [convertPCLToOpen3D, convertCloudPCLToOpen3D_cerr, List.nil_append]
    refine ⟨hlog, ?_, ?_, rfl, rfl, rfl⟩
    · rw [hlog]
      split <;> split <;> split <;> rfl
    · rw [hlog]
      split <;> split <;> split <;> decide

/-- C6: for every input of either conversion, null source pointers included, the
three destination cloud pointers are non-null; a null or empty source cloud
gives an allocated destination cloud with zero points. -/
theorem C6_destination_clouds_never_null :
    (∀ o : OPEN3DResult,
      (convertOpen3DToPCL o).1.downsampled_cloud ≠ none
      ∧ (convertOpen3DToPCL o).1.inlier_cloud ≠ none
      ∧ (convertOpen3DToPCL o).1.outlier_cloud ≠ none
      ∧ (pointsOfOpen3D o.downsampled_cloud = [] →
          ∃ c, (convertOpen3DToPCL o).1.downsampled_cloud = some c ∧ c.points.length = 0)
      ∧ (pointsOfOpen3D o.inlier_cloud = [] →
          ∃ c, (convertOpen3DToPCL o).1.inlier_cloud = some c ∧ c.points.length = 0)
      ∧ (pointsOfOpen3D o.outlier_cloud = [] →
          ∃ c, (convertOpen3DToPCL o).1.outlier_cloud = some c ∧ c.points.length = 0))
    ∧ (∀ (u : Vector4d) (p : PCLResult),
      (convertPCLToOpen3D u p).1.downsampled_cloud ≠ none
      ∧ (convertPCLToOpen3D u p).1.inlier_cloud ≠ none
      ∧ (convertPCLToOpen3D u p).1.outlier_cloud ≠ none
      ∧ (pointsOfPCL p.downsampled_cloud = [] →
          ∃ c, (convertPCLToOpen3D u p).1.downsampled_cloud = some c ∧ c.points_.length = 0)
      ∧ (pointsOfPCL p.inlier_cloud = [] →
          ∃ c, (convertPCLToOpen3D u p).1.inlier_cloud = some c ∧ c.points_.length = 0)
      ∧ (pointsOfPCL p.outlier_cloud = [] →
          ∃ c, (convertPCLToOpen3D u p).1.outlier_cloud = some c ∧ c.points_.length = 0)) := by
  constructor
  · intro o
    refine ⟨Option.some_ne_none _, Option.some_ne_none _, Option.some_ne_none _, ?_, ?_, ?_⟩ <;>
    · intro h
      refine ⟨_, rfl, ?_⟩
      rw [convertCloudOpen3DToPCL_points, h]
      rfl
  · intro u p
    refine ⟨Option.some_ne_none _, Option.some_ne_none _, Option.some_ne_none _, ?_, ?_, ?_⟩ <;>
    · intro h
      refine ⟨_, rfl, ?_⟩
      rw [convertCloudPCLToOpen3D_cloud, h]
      rfl

/-- C7: for each of the three clouds, `convertPCLToOpen3D` gives a destination
cloud with as many points as the source and whose multiset of coordinate triples
is that of the source points, each `float` widened to `double`. -/
theorem C7_coordinate_multiset_preserved (u : Vector4d) (p : PCLResult) :
    ((pointsOfOpen3D (convertPCLToOpen3D u p).1.downsampled_cloud).length
        = (pointsOfPCL p.downsampled_cloud).length
      ∧ (↑(pointsOfOpen3D (convertPCLToOpen3D u p).1.downsampled_cloud) : Multiset Vector3d)
        = Multiset.map
            (fun pt : PointT => Vector3d.mk (floatToDouble pt.x) (floatToDouble pt.y) (floatToDouble pt.z))
            (↑(pointsOfPCL p.downsampled_cloud) : Multiset PointT))
    ∧ ((pointsOfOpen3D (convertPCLToOpen3D u p).1.inlier_cloud).length
        = (pointsOfPCL p.inlier_cloud).length
      ∧ (↑(pointsOfOpen3D (convertPCLToOpen3D u p).1.inlier_cloud) : Multiset Vector3d)
        = Multiset.map
            (fun pt : PointT => Vector3d.mk (floatToDouble pt.x) (floatToDouble pt.y) (floatToDouble pt.z))
            (↑(pointsOfPCL p.inlier_cloud) : Multiset PointT))
    ∧ ((pointsOfOpen3D (convertPCLToOpen3D u p).1.outlier_cloud).length
        = (pointsOfPCL p.outlier_cloud).length
      ∧ (↑(pointsOfOpen3D (convertPCLToOpen3D u p).1.outlier_cloud) : Multiset Vector3d)
        = Multiset.map
            (fun pt : PointT => Vector3d.mk (floatToDouble pt.x) (floatToDouble pt.y) (floatToDouble pt.z))
            (↑(pointsOfPCL p.outlier_cloud) : Multiset PointT)) := by
  have key : ∀ src : Option PointCloudT, ∀ w cerr,
      pointsOfOpen3D (some (convertCloudPCLToOpen3D src O3DPointCloud.new w cerr).1)
        = (pointsOfPCL src).map toOpen3DPoint := by
    intro src w cerr
    rw [convertCloudPCLToOpen3D_cloud]
    rfl
  simp only [convertPCLToOpen3D, key, List.length_map, Multiset.map_coe, true_and]
  exact ⟨rfl, rfl, rfl⟩

/-- C8: `convertPCLToOpen3D` reads coordinates and the label only. Two inputs whose
clouds carry the same coordinate triples in the same positions and whose labels
agree give the same three clouds and the same label, whatever their
intensities, `width`, `height`, `is_dense` and plane coefficients are. -/
theorem C8_only_coordinates_are_read (u v : Vector4d) (p q : PCLResult)
    (hd : (pointsOfPCL p.downsampled_cloud).map PointXYZI.xyz
        = (pointsOfPCL q.downsampled_cloud).map PointXYZI.xyz)
    (hi : (pointsOfPCL p.inlier_cloud).map PointXYZI.xyz
        = (pointsOfPCL q.inlier_cloud).map PointXYZI.xyz)
    (ho : (pointsOfPCL p.outlier_cloud).map PointXYZI.xyz
        = (pointsOfPCL q.outlier_cloud).map PointXYZI.xyz)
    (hl : p.pcl_method = q.pcl_method) :
    (convertPCLToOpen3D u p).1.downsampled_cloud = (convertPCLToOpen3D v q).1.downsampled_cloud
    ∧ (convertPCLToOpen3D u p).1.inlier_cloud = (convertPCLToOpen3D v q).1.inlier_cloud
    ∧ (convertPCLToOpen3D u p).1.outlier_cloud = (convertPCLToOpen3D v q).1.outlier_cloud
    ∧ (convertPCLToOpen3D u p).1.open3d_method = (convertPCLToOpen3D v q).1.open3d_method := by
  have key : ∀ l₁ l₂ : List PointT, l₁.map PointXYZI.xyz = l₂.map PointXYZI.xyz →
      l₁.map toOpen3DPoint = l₂.map toOpen3DPoint := by
    intro l₁ l₂ h
    have hf : toOpen3DPoint
        = (fun t : Float32 × Float32 × Float32 =>
            Vector3d.mk (floatToDouble t.1) (floatToDouble t.2.1) (floatToDouble t.2.2))
          ∘ PointXYZI.xyz := rfl
    rw [hf, ← List.map_map, ← List.map_map, h]
  simp only [convertPCLToOpen3D, convertCloudPCLToOpen3D_cloud, key _ _ hd, key _ _ hi,
    key _ _ ho, hl, and_self]

/-- C3 (counterexample): on storage holding `(1, 0, 0, 0)` the plane coefficients
returned by `convertPCLToOpen3D` are not the zero vector. -/
theorem C3_plane_model_not_zero :
    (convertPCLToOpen3D sampleStorage samplePCLResult).1.plane_coefficients ≠ Vector4d.zero := by
  decide

/-- C4 (witness): the sample results have an empty inlier and a one-point outlier cloud. -/
theorem C4_empty_inlier_nonempty_outlier_witness :
    (convertOpen3DToPCL sampleOpen3DResult).2.count
        "[convertOpen3DToPCL] Warning: Inlier cloud is empty." = 1
    ∧ (convertPCLToOpen3D sampleStorage samplePCLResult).2.count
        "[convertPCLToOpen3D] Warning: Inlier cloud is empty." = 1 :=
  ⟨(C4_empty_inlier_nonempty_outlier.1 sampleOpen3DResult (by decide) (by decide)).2.2,
   (C4_empty_inlier_nonempty_outlier.2 sampleStorage samplePCLResult (by decide) (by decide)).2.2⟩

/-- C6 (witness): the null inlier pointer of the sample Open3D result and the
empty inlier cloud of the sample PCL result both give an allocated empty cloud. -/
theorem C6_destination_clouds_never_null_witness :
    (∃ c, (convertOpen3DToPCL sampleOpen3DResult).1.inlier_cloud = some c ∧ c.points.length = 0)
    ∧ (∃ c, (convertPCLToOpen3D sampleStorage samplePCLResult).1.inlier_cloud = some c
        ∧ c.points_.length = 0) :=
  ⟨(C6_destination_clouds_never_null.1 sampleOpen3DResult).2.2.2.2.1 (by decide),
   (C6_destination_clouds_never_null.2 sampleStorage samplePCLResult).2.2.2.2.1 (by decide)⟩

/-- C8 (witness): the two sample PCL results differ in intensities, metadata and
plane coefficients only, and convert to the same clouds and label. -/
theorem C8_only_coordinates_are_read_witness :
    samplePCLResult ≠ samplePCLResultVariant
    ∧ (convertPCLToOpen3D sampleStorage samplePCLResult).1.downsampled_cloud
        = (convertPCLToOpen3D Vector4d.zero samplePCLResultVariant).1.downsampled_cloud
    ∧ (convertPCLToOpen3D sampleStorage samplePCLResult).1.inlier_cloud
        = (convertPCLToOpen3D Vector4d.zero samplePCLResultVariant).1.inlier_cloud
    ∧ (convertPCLToOpen3D sampleStorage samplePCLResult).1.outlier_cloud
        = (convertPCLToOpen3D Vector4d.zero samplePCLResultVariant).1.outlier_cloud
    ∧ (convertPCLToOpen3D sampleStorage samplePCLResult).1.open3d_method
        = (convertPCLToOpen3D Vector4d.zero samplePCLResultVariant).1.open3d_method :=
  ⟨by decide,
   C8_only_coordinates_are_read sampleStorage Vector4d.zero samplePCLResult
     samplePCLResultVariant (by decide) (by decide) (by decide) (by decide)⟩

/-! ## Properties of the cloud loader -/

/-- C9: given an already materialised cloud, empty or not, `loadPCLCloud` returns
that very cloud, hands no path to the file parser, and neither exits nor writes
to `std::cerr`. -/
theorem C9_loader_returns_provided_cloud
    (loadPCDFile : String → PointCloudT → Int × PointCloudT) (c : PointCloudT) :
    (loadPCLCloud loadPCDFile (CloudInput.cloud (some c))).outcome
        = LoadOutcome.returned (some c)
    ∧ (loadPCLCloud loadPCDFile (CloudInput.cloud (some c))).fileReads = []
    ∧ (loadPCLCloud loadPCDFile (CloudInput.cloud (some c))).cerr = []
    ∧ (loadPCLCloud loadPCDFile (CloudInput.cloud (some PointCloudT.new))).outcome
        = LoadOutcome.returned (some PointCloudT.new) :=
  ⟨rfl, rfl, rfl, rfl⟩

/-- C10: given a path, `loadPCLCloud` ends the process with `EXIT_FAILURE` and
returns no cloud whenever the parser reports failure (return code `-1`);
otherwise it returns the cloud the parser filled. It never returns a null pointer. -/
theorem C10_loader_halts_on_parser_failure
    (loadPCDFile : String → PointCloudT → Int × PointCloudT) (file_path : String) :
    ((loadPCDFile file_path PointCloudT.new).1 = -1 →
        (loadPCLCloud loadPCDFile (CloudInput.path file_path)).outcome
            = LoadOutcome.exited EXIT_FAILURE
        ∧ (∀ c, (loadPCLCloud loadPCDFile (CloudInput.path file_path)).outcome
            ≠ LoadOutcome.returned c)
        ∧ (loadPCLCloud loadPCDFile (CloudInput.path file_path)).cerr
            = ["Failed to load " ++ file_path])
    ∧ ((loadPCDFile file_path PointCloudT.new).1 ≠ -1 →
        (loadPCLCloud loadPCDFile (CloudInput.path file_path)).outcome
            = LoadOutcome.returned (some (loadPCDFile file_path PointCloudT.new).2))
    ∧ (loadPCLCloud loadPCDFile (CloudInput.path file_path)).outcome
        ≠ LoadOutcome.returned none := by
  by_cases h : (loadPCDFile file_path PointCloudT.new).1 = -1
  · have ho : (loadPCLCloud loadPCDFile (CloudInput.path file_path)).outcome
        = LoadOutcome.exited EXIT_FAILURE := by
      simp only [loadPCLCloud, h, if_true]
    refine ⟨fun _ => ⟨ho, ?_, ?_⟩, fun h2 => absurd h h2, ?_⟩
    · intro c; rw [ho]; exact fun hc => LoadOutcome.noConfusion hc
    · simp only [loadPCLCloud, h, if_true]
    · rw [ho]; exact fun hc => LoadOutcome.noConfusion hc
  · have ho : (loadPCLCloud loadPCDFile (CloudInput.path file_path)).outcome
        = LoadOutcome.returned (some (loadPCDFile file_path PointCloudT.new).2) := by
      simp only [loadPCLCloud, h, if_false]
    refine ⟨fun h2 => absurd h2 h, fun _ => ho, ?_⟩
    rw [ho]
    intro hc
    injection hc with hc
    exact Option.noConfusion hc

/-- C10 (witness): the sample parser fails on `missing.pcd` and the loader exits;
it succeeds on `scan.pcd` and the loader returns the parsed cloud. -/
theorem C10_loader_halts_on_parser_failure_witness :
    (loadPCLCloud samplePCDParser (CloudInput.path "missing.pcd")).outcome
        = LoadOutcome.exited EXIT_FAILURE
    ∧ (loadPCLCloud samplePCDParser (CloudInput.path "scan.pcd")).outcome
        = LoadOutcome.returned (some (samplePCDParser "scan.pcd" PointCloudT.new).2) :=
  ⟨((C10_loader_halts_on_parser_failure samplePCDParser "missing.pcd").1 (by decide)).1,
   (C10_loader_halts_on_parser_failure samplePCDParser "scan.pcd").2.1 (by decide)⟩

/-! ## Properties of the candidate zone -/

/-- C13: a default-constructed `SLZDCandidatePoints` has `dataConfidence`,
`roughness`, `relief` and `score` equal to `0.0` and a null `plane_coefficients`,
whatever its storage held before. -/
theorem C13_default_candidate_is_unscored (u : Float64) :
    (SLZDCandidatePoints.default u).dataConfidence = Float64.zero
    ∧ (SLZDCandidatePoints.default u).roughness = Float64.zero
    ∧ (SLZDCandidatePoints.default u).relief = Float64.zero
    ∧ (SLZDCandidatePoints.default u).score = Float64.zero
    ∧ (SLZDCandidatePoints.default u).plane_coefficients = none :=
  ⟨rfl, rfl, rfl, rfl, rfl⟩

/-- C14 (the code at the failing input): constructed over storage that holds
`1.0`, the candidate has `patchRadius = 1.0`, not `0.0`, while its four sibling
fields are `0.0`. -/
theorem C14_patchRadius_left_unset :
    (SLZDCandidatePoints.default Float64.one).patchRadius = Float64.one
    ∧ (SLZDCandidatePoints.default Float64.one).patchRadius ≠ Float64.zero
    ∧ (SLZDCandidatePoints.default Float64.one).score = Float64.zero := by
  decide

/-! ## Properties of the downsampler -/

theorem voxelGridFilter_points_length (centroid : List PointT → PointT)
    (origin : Int × Int × Int) (input : PointCloudT) (leaf : Float32) (output : PointCloudT) :
    (voxelGridFilter centroid origin (some input) leaf output).points.length
      = ((input.points.map (voxelCell origin leaf)).dedup).length := by
  simp [voxelGridFilter]

theorem voxelGridFilter_points_eq_nil_iff (centroid : List PointT → PointT)
    (origin : Int × Int × Int) (input : PointCloudT) (leaf : Float32) (output : PointCloudT) :
    (voxelGridFilter centroid origin (some input) leaf output).points = []
      ↔ input.points = [] := by
  rw [← List.length_eq_zero, voxelGridFilter_points_length, List.length_eq_zero,
    List.dedup_eq_nil, List.map_eq_nil_iff]

/-- C11 (as amended): `downsamplePointCloudPCL` validates nothing. For every
voxel size, zero and negative sizes included, and every allocated output cloud
it applies the voxel-grid filter with that size and returns normally, leaving
the filter's result in the output cloud. -/
theorem C11_no_voxel_size_validation
    (voxelGrid : Option PointCloudT → Float32 → PointCloudT → PointCloudT)
    (input_cloud : Option PointCloudT) (output : PointCloudT) (voxelSize : Float32) :
    downsamplePointCloudPCL voxelGrid input_cloud (some output) voxelSize
      = DownsampleOutcome.completed (voxelGrid input_cloud voxelSize output) :=
  rfl

/-- C11 (counterexample): with `voxelSize = 0.0f`, which is `<= 0`, the call on the
cube cloud does not fail: it applies the filter and returns with an output cloud. -/
theorem C11_zero_voxel_size_is_filtered :
    Float32.zero.leZero = true
    ∧ downsamplePointCloudPCL (voxelGridFilter sampleCentroid alignedOrigin) (some cubeCloud)
          (some PointCloudT.new) Float32.zero
        = DownsampleOutcome.completed
            (voxelGridFilter sampleCentroid alignedOrigin (some cubeCloud) Float32.zero
              PointCloudT.new)
    ∧ downsamplePointCloudPCL (voxelGridFilter sampleCentroid alignedOrigin) (some cubeCloud)
          (some PointCloudT.new) Float32.zero
        ≠ DownsampleOutcome.nullDereference := by
  decide

/-- C12: for every cloud `C` and every voxel size `v > 0`, the call completes
and the cloud it produces has at most as many points as `C` and is empty if and
only if `C` is empty; this holds for every anchor of the grid, the grid laid over
the cloud included. -/
theorem C12_downsample_point_count (centroid : List PointT → PointT)
    (origin : Int × Int × Int) (C output : PointCloudT) (v : Float32)
    (_hv : v.gtZero = true) :
    (∃ result,
      downsamplePointCloudPCL (voxelGridFilter centroid origin) (some C) (some output) v
        = DownsampleOutcome.completed result
      ∧ result.points.length ≤ C.points.length
      ∧ (result.points = [] ↔ C.points = []))
    ∧ (∃ result,
      downsamplePointCloudPCL (voxelGridOverCloud centroid) (some C) (some output) v
        = DownsampleOutcome.completed result
      ∧ result.points.length ≤ C.points.length
      ∧ (result.points = [] ↔ C.points = [])) := by
  have key : ∀ o : Int × Int × Int,
      (voxelGridFilter centroid o (some C) v output).points.length ≤ C.points.length
      ∧ ((voxelGridFilter centroid o (some C) v output).points = [] ↔ C.points = []) := by
    intro o
    refine ⟨?_, voxelGridFilter_points_eq_nil_iff centroid o C v output⟩
    rw [voxelGridFilter_points_length]
    exact le_trans (List.dedup_sublist _).length_le (le_of_eq (List.length_map _ _))
  exact ⟨⟨_, rfl, key origin⟩, ⟨_, rfl, key (cloudMinimumCorner C)⟩⟩

/-- C12 (witness): the cube cloud downsampled with `voxelSize = 1.0f`. -/
theorem C12_downsample_point_count_witness :
    (∃ result,
      downsamplePointCloudPCL (voxelGridFilter sampleCentroid alignedOrigin) (some cubeCloud)
          (some PointCloudT.new) Float32.one
        = DownsampleOutcome.completed result
      ∧ result.points.length ≤ cubeCloud.points.length
      ∧ (result.points = [] ↔ cubeCloud.points = []))
    ∧ (∃ result,
      downsamplePointCloudPCL (voxelGridOverCloud sampleCentroid) (some cubeCloud)
          (some PointCloudT.new) Float32.one
        = DownsampleOutcome.completed result
      ∧ result.points.length ≤ cubeCloud.points.length
      ∧ (result.points = [] ↔ cubeCloud.points = [])) :=
  C12_downsample_point_count sampleCentroid alignedOrigin cubeCloud PointCloudT.new
    Float32.one (by decide)

/-! ## Metadata of the PCL clouds made by the bridge -/

theorem convertCloudOpen3DToPCL_of_empty (src : Option O3DPointCloud) (warning : String)
    (cerr : List String) (h : pointsOfOpen3D src = []) :
    (convertCloudOpen3DToPCL src PointCloudT.new warning cerr).1 = PointCloudT.new := by
  cases src with
  | none => rfl
  | some cloud =>
    have hp : cloud.points_ = [] := h
    simp [convertCloudOpen3DToPCL, hp]

theorem convertCloudOpen3DToPCL_of_nonempty (src : Option O3DPointCloud) (warning : String)
    (cerr : List String) (h : pointsOfOpen3D src ≠ []) :
    (convertCloudOpen3DToPCL src PointCloudT.new warning cerr).1
      = { points := (pointsOfOpen3D src).map toPCLPoint,
          width := (pointsOfOpen3D src).length % 4294967296,
          height := 1,
          is_dense := true } := by
  cases src with
  | none => exact absurd rfl h
  | some cloud =>
    have hp : cloud.points_ ≠ [] := h
    simp [convertCloudOpen3DToPCL, hp, pointsOfOpen3D, PointCloudT.new,
      foldl_push_eq_append_map]

theorem mem_cloudPairsOpen3DToPCL (o : OPEN3DResult)
    (pair : Option O3DPointCloud × Option PointCloudT) (h : pair ∈ cloudPairsOpen3DToPCL o) :
    ∃ warning cerr,
      pair.2 = some (convertCloudOpen3DToPCL pair.1 PointCloudT.new warning cerr).1 := by
  simp only [cloudPairsOpen3DToPCL, List.mem_cons, List.mem_singleton, List.not_mem_nil,
    or_false] at h
  rcases h with h | h | h <;> subst h <;> exact ⟨_, _, rfl⟩

theorem mem_cloudPairsPCLToOpen3D (u : Vector4d) (p : PCLResult)
    (pair : Option PointCloudT × Option O3DPointCloud) (h : pair ∈ cloudPairsPCLToOpen3D u p) :
    ∃ warning cerr,
      pair.2 = some (convertCloudPCLToOpen3D pair.1 O3DPointCloud.new warning cerr).1 := by
  simp only [cloudPairsPCLToOpen3D, List.mem_cons, List.mem_singleton, List.not_mem_nil,
    or_false] at h
  rcases h with h | h | h <;> subst h <;> exact ⟨_, _, rfl⟩

theorem uniformOpen3DResult_downsampled (n : Nat) (hn : 0 < n) :
    ∃ cloud, (convertOpen3DToPCL (uniformOpen3DResult n)).1.downsampled_cloud = some cloud
      ∧ cloud.points.length = n
      ∧ cloud.width = n % 4294967296
      ∧ cloud.height = 1 := by
  have hlen : (pointsOfOpen3D (uniformOpen3DResult n).downsampled_cloud).length = n := by
    simp only [uniformOpen3DResult, pointsOfOpen3D, List.length_replicate]
  have hne : pointsOfOpen3D (uniformOpen3DResult n).downsampled_cloud ≠ [] := by
    intro h
    rw [h] at hlen
    exact absurd hlen.symm (Nat.ne_of_gt hn)
  refine ⟨_, rfl, ?_, ?_, ?_⟩
  · rw [convertCloudOpen3DToPCL_of_nonempty _ _ _ hne]
    simp only [List.length_map, hlen]
  · rw [convertCloudOpen3DToPCL_of_nonempty _ _ _ hne]
    simp only [hlen]
  · rw [convertCloudOpen3DToPCL_of_nonempty _ _ _ hne]

/-- C15 (as amended): every PCL cloud made by `convertOpen3DToPCL`, from an empty
or null source too, satisfies `width * height = number of points` as long as it
has fewer than `2^32` points (`width` is a 32-bit field). -/
theorem C15_width_times_height (o : OPEN3DResult)
    (pair : Option O3DPointCloud × Option PointCloudT) (cloud : PointCloudT)
    (hpair : pair ∈ cloudPairsOpen3DToPCL o) (hcloud : pair.2 = some cloud)
    (hsize : cloud.points.length < 4294967296) :
    cloud.width * cloud.height = cloud.points.length := by
  obtain ⟨warning, cerr, hdst⟩ := mem_cloudPairsOpen3DToPCL o pair hpair
  rw [hcloud] at hdst
  injection hdst with hdst
  subst hdst
  by_cases h : pointsOfOpen3D pair.1 = []
  · rw [convertCloudOpen3DToPCL_of_empty _ _ _ h]
    rfl
  · rw [convertCloudOpen3DToPCL_of_nonempty _ _ _ h] at hsize ⊢
    simp only [List.length_map, Nat.mul_one] at hsize ⊢
    exact Nat.mod_eq_of_lt hsize

/-- C15 (counterexample): a source of `2^32` points gives a downsampled PCL cloud
with `2^32` points whose `width * height` is `0`, not the number of points. -/
theorem C15_width_wraps_at_two_pow_32 :
    ∃ cloud, (convertOpen3DToPCL (uniformOpen3DResult 4294967296)).1.downsampled_cloud = some cloud
      ∧ cloud.points.length = 4294967296
      ∧ cloud.width * cloud.height = 0
      ∧ cloud.width * cloud.height ≠ cloud.points.length := by
  obtain ⟨cloud, hcloud, hlen, hw, hh⟩ :=
    uniformOpen3DResult_downsampled 4294967296 (by decide)
  refine ⟨cloud, hcloud, hlen, ?_, ?_⟩
  · rw [hw, hh, Nat.mod_self]
  · rw [hw, hh, hlen, Nat.mod_self]
    decide

/-- C15 (witness): the one-point outlier cloud made from the sample Open3D result. -/
theorem C15_width_times_height_witness :
    ∃ cloud, (convertOpen3DToPCL sampleOpen3DResult).1.outlier_cloud = some cloud
      ∧ cloud.width * cloud.height = cloud.points.length :=
  ⟨_, rfl,
    C15_width_times_height sampleOpen3DResult
      (sampleOpen3DResult.outlier_cloud, (convertOpen3DToPCL sampleOpen3DResult).1.outlier_cloud)
      _ (by simp [cloudPairsOpen3DToPCL]) rfl (by decide)⟩

/-- C16 (as amended): every PCL cloud made by `convertOpen3DToPCL` has
`is_dense = true`, whatever its points are; so a cloud without a non-finite
coordinate is flagged dense, and so is one with such a coordinate. -/
theorem C16_is_dense_always_true (o : OPEN3DResult)
    (pair : Option O3DPointCloud × Option PointCloudT) (cloud : PointCloudT)
    (hpair : pair ∈ cloudPairsOpen3DToPCL o) (hcloud : pair.2 = some cloud) :
    cloud.is_dense = true := by
  obtain ⟨warning, cerr, hdst⟩ := mem_cloudPairsOpen3DToPCL o pair hpair
  rw [hcloud] at hdst
  injection hdst with hdst
  subst hdst
  by_cases h : pointsOfOpen3D pair.1 = []
  · rw [convertCloudOpen3DToPCL_of_empty _ _ _ h]
    rfl
  · rw [convertCloudOpen3DToPCL_of_nonempty _ _ _ h]

/-- C16 (counterexample): a source point with a NaN coordinate gives a PCL cloud
that is flagged dense although one of its points has a non-finite coordinate. -/
theorem C16_dense_flag_on_nan_point :
    ∃ cloud, (convertOpen3DToPCL nanOpen3DResult).1.downsampled_cloud = some cloud
      ∧ cloud.is_dense = true
      ∧ ¬ (∀ pt ∈ cloud.points, pt.isFiniteXYZ = true) :=
  ⟨_, rfl, by decide, by decide⟩

/-- C16 (witness): the outlier cloud made from the sample Open3D result is flagged dense. -/
theorem C16_is_dense_always_true_witness :
    ∃ cloud, (convertOpen3DToPCL sampleOpen3DResult).1.outlier_cloud = some cloud
      ∧ cloud.is_dense = true :=
  ⟨_, rfl,
    C16_is_dense_always_true sampleOpen3DResult
      (sampleOpen3DResult.outlier_cloud, (convertOpen3DToPCL sampleOpen3DResult).1.outlier_cloud)
      _ (by simp [cloudPairsOpen3DToPCL]) rfl⟩

/-- C18 (as amended): a PCL cloud made by `convertOpen3DToPCL` from a source with
at least one point has `height = 1` and `width` equal to its point count modulo
`2^32` (the point count itself below `2^32` points); one made from an empty or
null source keeps `width = 0` and `height = 0`. -/
theorem C18_height_and_width (o : OPEN3DResult)
    (pair : Option O3DPointCloud × Option PointCloudT) (cloud : PointCloudT)
    (hpair : pair ∈ cloudPairsOpen3DToPCL o) (hcloud : pair.2 = some cloud) :
    (pointsOfOpen3D pair.1 ≠ [] →
        cloud.height = 1 ∧ cloud.width = cloud.points.length % 4294967296
        ∧ (cloud.points.length < 4294967296 → cloud.width = cloud.points.length))
    ∧ (pointsOfOpen3D pair.1 = [] →
        cloud.height = 0 ∧ cloud.width = 0 ∧ cloud.points.length = 0) := by
  obtain ⟨warning, cerr, hdst⟩ := mem_cloudPairsOpen3DToPCL o pair hpair
  rw [hcloud] at hdst
  injection hdst with hdst
  subst hdst
  constructor
  · intro h
    rw [convertCloudOpen3DToPCL_of_nonempty _ _ _ h]
    simp only [List.length_map, true_and]
    exact fun hlt => Nat.mod_eq_of_lt hlt
  · intro h
    rw [convertCloudOpen3DToPCL_of_empty _ _ _ h]
    exact ⟨rfl, rfl, rfl⟩

/-- C18 (counterexample): the inlier cloud made from the null inlier pointer of
the sample Open3D result has `height = 0`, not `1`. -/
theorem C18_empty_cloud_has_height_zero :
    ∃ cloud, (convertOpen3DToPCL sampleOpen3DResult).1.inlier_cloud = some cloud
      ∧ cloud.height = 0 ∧ cloud.height ≠ 1 :=
  ⟨_, rfl, by decide, by decide⟩

/-- C18 (witness): the one-point outlier cloud made from the sample Open3D result. -/
theorem C18_height_and_width_witness :
    ∃ cloud, (convertOpen3DToPCL sampleOpen3DResult).1.outlier_cloud = some cloud
      ∧ cloud.height = 1 ∧ cloud.width = cloud.points.length % 4294967296 :=
  ⟨_, rfl,
    ((C18_height_and_width sampleOpen3DResult
      (sampleOpen3DResult.outlier_cloud, (convertOpen3DToPCL sampleOpen3DResult).1.outlier_cloud)
      _ (by simp [cloudPairsOpen3DToPCL]) rfl).1 (by decide)).1,
    ((C18_height_and_width sampleOpen3DResult
      (sampleOpen3DResult.outlier_cloud, (convertOpen3DToPCL sampleOpen3DResult).1.outlier_cloud)
      _ (by simp [cloudPairsOpen3DToPCL]) rfl).1 (by decide)).2.1⟩

theorem cloudMinimumCorner_cubeCloud : cloudMinimumCorner cubeCloud = cubeMinimumOrigin := by
  decide

/-- C19: both conversions keep the order of the points. For each of the three
clouds the destination has the length of the source and its `i`-th point carries
the converted coordinates of the `i`-th source point, for every index `i`. -/
theorem C19_point_order_preserved :
    (∀ (o : OPEN3DResult), ∀ pair ∈ cloudPairsOpen3DToPCL o,
        (pointsOfPCL pair.2).length = (pointsOfOpen3D pair.1).length
        ∧ ∀ i : Nat, ((pointsOfPCL pair.2)[i]?).map PointXYZI.xyz
            = ((pointsOfOpen3D pair.1)[i]?).map
                (fun pt => (doubleToFloat pt.x, doubleToFloat pt.y, doubleToFloat pt.z)))
    ∧ (∀ (u : Vector4d) (p : PCLResult), ∀ pair ∈ cloudPairsPCLToOpen3D u p,
        (pointsOfOpen3D pair.2).length = (pointsOfPCL pair.1).length
        ∧ ∀ i : Nat, (pointsOfOpen3D pair.2)[i]?
            = ((pointsOfPCL pair.1)[i]?).map
                (fun pt =>
                  Vector3d.mk (floatToDouble pt.x) (floatToDouble pt.y) (floatToDouble pt.z))) := by
  constructor
  · intro o pair hpair
    obtain ⟨warning, cerr, hdst⟩ := mem_cloudPairsOpen3DToPCL o pair hpair
    have hpts : pointsOfPCL pair.2 = (pointsOfOpen3D pair.1).map toPCLPoint := by
      rw [hdst]
      exact convertCloudOpen3DToPCL_points pair.1 warning cerr
    rw [hpts]
    refine ⟨List.length_map _ _, fun i => ?_⟩
    rw [List.getElem?_map, Option.map_map]
    rfl
  · intro u p pair hpair
    obtain ⟨warning, cerr, hdst⟩ := mem_cloudPairsPCLToOpen3D u p pair hpair
    have hpts : pointsOfOpen3D pair.2 = (pointsOfPCL pair.1).map toOpen3DPoint := by
      rw [hdst, convertCloudPCLToOpen3D_cloud]
      rfl
    rw [hpts]
    refine ⟨List.length_map _ _, fun i => ?_⟩
    rw [List.getElem?_map]
    rfl

/-- C19 (witness): the first point of the outlier cloud, in both directions. -/
theorem C19_point_order_preserved_witness :
    ((pointsOfPCL (convertOpen3DToPCL sampleOpen3DResult).1.outlier_cloud)[0]?).map PointXYZI.xyz
        = ((pointsOfOpen3D sampleOpen3DResult.outlier_cloud)[0]?).map
            (fun pt => (doubleToFloat pt.x, doubleToFloat pt.y, doubleToFloat pt.z))
    ∧ (pointsOfOpen3D (convertPCLToOpen3D sampleStorage samplePCLResult).1.outlier_cloud)[0]?
        = ((pointsOfPCL samplePCLResult.outlier_cloud)[0]?).map
            (fun pt =>
              Vector3d.mk (floatToDouble pt.x) (floatToDouble pt.y) (floatToDouble pt.z)) :=
  ⟨(C19_point_order_preserved.1 sampleOpen3DResult
      (sampleOpen3DResult.outlier_cloud, (convertOpen3DToPCL sampleOpen3DResult).1.outlier_cloud)
      (by simp [cloudPairsOpen3DToPCL])).2 0,
   (C19_point_order_preserved.2 sampleStorage samplePCLResult
      (samplePCLResult.outlier_cloud,
        (convertPCLToOpen3D sampleStorage samplePCLResult).1.outlier_cloud)
      (by simp [cloudPairsPCLToOpen3D])).2 0⟩

theorem Float32.quiet_eq_self_iff (f : Float32) : f.quiet = f ↔ f.isSignalingNaN = false := by
  rcases f with ⟨s, ⟨e, he⟩, ⟨m, hm⟩⟩
  simp only [Float32.quiet, Float32.isSignalingNaN, Float32.isNaN, Bool.and_eq_true,
    decide_eq_true_eq, Bool.and_eq_false_iff, decide_eq_false_iff_not, not_lt]
  by_cases hn : e = 255 ∧ m ≠ 0
  · rw [if_pos hn]
    obtain ⟨h1, h2⟩ := hn
    subst h1
    constructor
    · intro h
      have hm2 := congrArg (fun g : Float32 => g.mantissa.val) h
      simp only [Float32.ofFields] at hm2
      right
      omega
    · intro h
      have h3 : m % 4194304 + 4194304 = m := by
        rcases h with (h | h) | h
        · exact absurd rfl h
        · exact absurd h2 h
        · omega
      rw [h3, Float32.ofFields_eq s 255 m (by decide) hm]
  · rw [if_neg hn]
    exact ⟨fun _ => Or.inl (Decidable.not_and_iff_or_not_not.mp hn), fun _ => rfl⟩

theorem toPCLPoint_toOpen3DPoint (pt : PointT) :
    toPCLPoint (toOpen3DPoint pt)
      = { x := pt.x.quiet, y := pt.y.quiet, z := pt.z.quiet, intensity := Float32.zero } := by
  simp [toPCLPoint, toOpen3DPoint, doubleToFloat_floatToDouble, PointXYZI.default]

theorem mem_cloudPairsRoundTrip (u : Vector4d) (R : PCLResult)
    (pair : Option PointCloudT × Option PointCloudT) (h : pair ∈ cloudPairsRoundTrip u R) :
    pointsOfPCL pair.2
      = (pointsOfPCL pair.1).map (fun pt =>
          ({ x := pt.x.quiet, y := pt.y.quiet, z := pt.z.quiet,
             intensity := Float32.zero } : PointT)) := by
  have key : ∀ (src : Option PointCloudT) (w₁ w₂ : String) (c₁ c₂ : List String),
      pointsOfPCL (some (convertCloudOpen3DToPCL
          (some (convertCloudPCLToOpen3D src O3DPointCloud.new w₁ c₁).1)
          PointCloudT.new w₂ c₂).1)
        = (pointsOfPCL src).map (fun pt =>
          ({ x := pt.x.quiet, y := pt.y.quiet, z := pt.z.quiet,
             intensity := Float32.zero } : PointT)) := by
    intro src w₁ w₂ c₁ c₂
    show (convertCloudOpen3DToPCL _ PointCloudT.new w₂ c₂).1.points = _
    rw [convertCloudOpen3DToPCL_points, convertCloudPCLToOpen3D_cloud]
    simp only [pointsOfOpen3D, List.map_map]
    exact List.map_congr_left (fun pt _ => toPCLPoint_toOpen3DPoint pt)
  simp only [cloudPairsRoundTrip, List.mem_cons, List.mem_singleton, List.not_mem_nil,
    or_false] at h
  rcases h with h | h | h <;> subst h <;> exact key _ _ _ _ _

/-- C20 (as amended): after `convertOpen3DToPCL(convertPCLToOpen3D(R))` each cloud
has the same points in the same order, every coordinate unchanged unless it is a
signalling NaN (which comes back quiet), and every intensity `0.0f`. The round
trip is the identity on a cloud's points exactly when all its intensities were
`0.0f` and none of its coordinates is a signalling NaN. -/
theorem C20_roundtrip_resets_intensity (u : Vector4d) (R : PCLResult)
    (pair : Option PointCloudT × Option PointCloudT) (hpair : pair ∈ cloudPairsRoundTrip u R) :
    pointsOfPCL pair.2
        = (pointsOfPCL pair.1).map (fun pt =>
            ({ x := pt.x.quiet, y := pt.y.quiet, z := pt.z.quiet,
               intensity := Float32.zero } : PointT))
    ∧ (∀ (i : Nat) (pt : PointT), (pointsOfPCL pair.1)[i]? = some pt →
        pt.x.isSignalingNaN = false → pt.y.isSignalingNaN = false →
        pt.z.isSignalingNaN = false →
          (pointsOfPCL pair.2)[i]? = some { pt with intensity := Float32.zero })
    ∧ (pointsOfPCL pair.2 = pointsOfPCL pair.1 ↔
        ∀ pt ∈ pointsOfPCL pair.1,
          pt.intensity = Float32.zero ∧ pt.x.isSignalingNaN = false
          ∧ pt.y.isSignalingNaN = false ∧ pt.z.isSignalingNaN = false) := by
  have hpts := mem_cloudPairsRoundTrip u R pair hpair
  refine ⟨hpts, ?_, ?_⟩
  · intro i pt hi hx hy hz
    rw [hpts, List.getElem?_map, hi, Option.map_some',
      (Float32.quiet_eq_self_iff pt.x).mpr hx, (Float32.quiet_eq_self_iff pt.y).mpr hy,
      (Float32.quiet_eq_self_iff pt.z).mpr hz]
  · rw [hpts]
    have hid : ∀ l : List PointT, l = l.map id := fun l => (List.map_id l).symm
    constructor
    · intro h pt hpt
      have h2 : (pointsOfPCL pair.1).map (fun pt =>
            ({ x := pt.x.quiet, y := pt.y.quiet, z := pt.z.quiet,
               intensity := Float32.zero } : PointT))
          = (pointsOfPCL pair.1).map id := by
        rw [h, List.map_id]
      have h3 := List.map_inj_left.mp h2 pt hpt
      simp only [id] at h3
      have hx := congrArg PointXYZI.x h3
      have hy := congrArg PointXYZI.y h3
      have hz := congrArg PointXYZI.z h3
      have hi := congrArg PointXYZI.intensity h3
      simp only at hx hy hz hi
      exact ⟨hi.symm, (Float32.quiet_eq_self_iff pt.x).mp hx,
        (Float32.quiet_eq_self_iff pt.y).mp hy, (Float32.quiet_eq_self_iff pt.z).mp hz⟩
    · intro h
      conv_rhs => rw [hid (pointsOfPCL pair.1)]
      apply List.map_congr_left
      intro pt hpt
      obtain ⟨hi, hx, hy, hz⟩ := h pt hpt
      rw [(Float32.quiet_eq_self_iff pt.x).mpr hx, (Float32.quiet_eq_self_iff pt.y).mpr hy,
        (Float32.quiet_eq_self_iff pt.z).mpr hz, ← hi]
      rfl

/-- C20 (counterexample): a cloud whose only point has intensity `0.0f` and a
signalling NaN as `x` does not come back unchanged; its `x` comes back quiet. -/
theorem C20_signaling_nan_comes_back_quiet :
    (∀ pt ∈ pointsOfPCL signalingPCLResult.downsampled_cloud, pt.intensity = Float32.zero)
    ∧ pointsOfPCL
        (convertOpen3DToPCL (convertPCLToOpen3D sampleStorage signalingPCLResult).1).1.downsampled_cloud
      ≠ pointsOfPCL signalingPCLResult.downsampled_cloud
    ∧ (pointsOfPCL
        (convertOpen3DToPCL
          (convertPCLToOpen3D sampleStorage signalingPCLResult).1).1.downsampled_cloud).map
            PointXYZI.x
      = [Float32.ofFields false 255 4194305] := by
  decide

/-- C20 (witness): the downsampled cloud of the sample PCL result, whose
intensities are not zero, does not come back unchanged. -/
theorem C20_roundtrip_resets_intensity_witness :
    pointsOfPCL
        (convertOpen3DToPCL (convertPCLToOpen3D sampleStorage samplePCLResult).1).1.downsampled_cloud
      = (pointsOfPCL samplePCLResult.downsampled_cloud).map (fun pt =>
          ({ x := pt.x.quiet, y := pt.y.quiet, z := pt.z.quiet,
             intensity := Float32.zero } : PointT)) :=
  (C20_roundtrip_resets_intensity sampleStorage samplePCLResult
    (samplePCLResult.downsampled_cloud,
      (convertOpen3DToPCL
        (convertPCLToOpen3D sampleStorage samplePCLResult).1).1.downsampled_cloud)
    (by simp [cloudPairsRoundTrip])).1

end SLZD
